import Mathlib

/-!
Verification of the journald-writer daemon (src/main.rs, src/writer.rs)
against its natural-language specification.

The development shallowly embeds the program:
* file contents are lists of bytes (`List Nat`, each value < 256);
* Rust `&str` values are Lean `String`s; `as_bytes`/`from_utf8_lossy`
  are embedded as an executable UTF-8 codec;
* the filesystem state touched by the cursor store is a pair of
  optional files (the cursor file and its `~`-suffixed temporary);
* fallible I/O (sink write, flush, cursor save) is driven by an
  explicit environment of success flags;
* the journald reader collaborator (an external crate, only its
  interface is visible from this repository) is modelled with the
  journal API's location semantics: a seek establishes a location,
  `previous` realizes the newest entry at or before that location
  (this is the semantics that makes the well-known
  seek-tail-then-previous idiom return the last entry), and the
  iterator yields entries strictly after the realized position.
-/

/-! ## UTF-8 codec: embedding of `str::as_bytes` and `String::from_utf8_lossy` -/

/-- Encode one Unicode scalar value (a `Nat`) as its UTF-8 byte sequence. -/
def utf8EncodeScalar (v : Nat) : List Nat :=
  if v < 0x80 then [v]
  else if v < 0x800 then [0xC0 + v / 64, 0x80 + v % 64]
  else if v < 0x10000 then [0xE0 + v / 4096, 0x80 + v / 64 % 64, 0x80 + v % 64]
  else [0xF0 + v / 262144, 0x80 + v / 4096 % 64, 0x80 + v / 64 % 64, 0x80 + v % 64]

/-- Encode a sequence of Unicode scalar values as UTF-8 bytes
(the byte content of a Rust `&str`). -/
def utf8Encode (vs : List Nat) : List Nat :=
  (vs.map utf8EncodeScalar).flatten

/-- Is the byte a UTF-8 continuation byte (`0x80..=0xBF`)? -/
abbrev utf8Cont (b : Nat) : Prop := 0x80 ≤ b ∧ b ≤ 0xBF

/-- May `b1` follow the three-byte leading byte `b0` in valid UTF-8?
These are exactly the ranges the Rust standard library validator checks
(they exclude overlong encodings and surrogate values). -/
abbrev utf8Viable3 (b0 b1 : Nat) : Prop :=
  (b0 = 0xE0 ∧ 0xA0 ≤ b1 ∧ b1 ≤ 0xBF) ∨
  (0xE1 ≤ b0 ∧ b0 ≤ 0xEC ∧ utf8Cont b1) ∨
  (b0 = 0xED ∧ 0x80 ≤ b1 ∧ b1 ≤ 0x9F) ∨
  (0xEE ≤ b0 ∧ b0 ≤ 0xEF ∧ utf8Cont b1)

/-- May `b1` follow the four-byte leading byte `b0` in valid UTF-8? -/
abbrev utf8Viable4 (b0 b1 : Nat) : Prop :=
  (b0 = 0xF0 ∧ 0x90 ≤ b1 ∧ b1 ≤ 0xBF) ∨
  (0xF1 ≤ b0 ∧ b0 ≤ 0xF3 ∧ utf8Cont b1) ∨
  (b0 = 0xF4 ∧ 0x80 ≤ b1 ∧ b1 ≤ 0x8F)

/-- The Unicode replacement character that `String::from_utf8_lossy`
substitutes for ill-formed input. -/
def replacementScalar : Nat := 0xFFFD

/-- One lossy decoding step at a sequence boundary, `b0` being the
leading byte and `rest` the bytes after it: the Unicode scalar value
produced (the decoded character, or U+FFFD for a maximal ill-formed
subpart) and how many bytes of `rest` belong to the step (the rest of
the character's sequence, or of the ill-formed subpart). -/
def utf8DecodeStep (b0 : Nat) (rest : List Nat) : Nat × Nat :=
  if b0 ≤ 0x7F then (b0, 0)
  else if 0xC2 ≤ b0 ∧ b0 ≤ 0xDF then
    match rest with
    | [] => (replacementScalar, 0)
    | b1 :: _ =>
      if utf8Cont b1 then ((b0 - 0xC0) * 64 + (b1 - 0x80), 1)
      else (replacementScalar, 0)
  else if 0xE0 ≤ b0 ∧ b0 ≤ 0xEF then
    match rest with
    | [] => (replacementScalar, 0)
    | [b1] =>
      if utf8Viable3 b0 b1 then (replacementScalar, 1) else (replacementScalar, 0)
    | b1 :: b2 :: _ =>
      if utf8Viable3 b0 b1 then
        if utf8Cont b2 then ((b0 - 0xE0) * 4096 + (b1 - 0x80) * 64 + (b2 - 0x80), 2)
        else (replacementScalar, 1)
      else (replacementScalar, 0)
  else if 0xF0 ≤ b0 ∧ b0 ≤ 0xF4 then
    match rest with
    | [] => (replacementScalar, 0)
    | [b1] =>
      if utf8Viable4 b0 b1 then (replacementScalar, 1) else (replacementScalar, 0)
    | [b1, b2] =>
      if utf8Viable4 b0 b1 then
        if utf8Cont b2 then (replacementScalar, 2) else (replacementScalar, 1)
      else (replacementScalar, 0)
    | b1 :: b2 :: b3 :: _ =>
      if utf8Viable4 b0 b1 then
        if utf8Cont b2 then
          if utf8Cont b3 then
            ((b0 - 0xF0) * 262144 + (b1 - 0x80) * 4096 + (b2 - 0x80) * 64 + (b3 - 0x80), 3)
          else (replacementScalar, 2)
        else (replacementScalar, 1)
      else (replacementScalar, 0)
  else (replacementScalar, 0)

/-- Iterate decoding steps.  The fuel only bounds the number of steps so
the recursion is structural; since every step consumes at least the
leading byte, a fuel of the list's length is always enough. -/
def utf8DecodeLossyAux : Nat → List Nat → List Nat
  | _, [] => []
  | 0, _ :: _ => []
  | fuel + 1, b0 :: rest =>
    let s := utf8DecodeStep b0 rest
    s.1 :: utf8DecodeLossyAux fuel (rest.drop s.2)

/-- Decode UTF-8 bytes to Unicode scalar values, replacing each maximal
ill-formed subpart with U+FFFD, following `String::from_utf8_lossy`. -/
def utf8DecodeLossy (l : List Nat) : List Nat :=
  utf8DecodeLossyAux l.length l

/-- The bytes of a string: embedding of `str::as_bytes`. -/
def strToBytes (s : String) : List Nat :=
  utf8Encode (s.toList.map Char.toNat)

/-- Lossy decoding of bytes to a string: embedding of
`String::from_utf8_lossy(..).into_owned()`. -/
def utf8DecodeLossyStr (bs : List Nat) : String :=
  String.mk ((utf8DecodeLossy bs).map Char.ofNat)

/-! ## Substring containment (used to state the end-to-end scenario) -/

/-- Does `needle` occur at the head of `hay`? -/
def leadsWith : List Char → List Char → Bool
  | [], _ => true
  | _ :: _, [] => false
  | a :: as, b :: bs => a == b && leadsWith as bs

/-- Does `needle` occur contiguously anywhere inside `hay`? -/
def containsSeq (needle : List Char) : List Char → Bool
  | [] => leadsWith needle []
  | b :: bs => leadsWith needle (b :: bs) || containsSeq needle bs

/-! ## Severity levels: embedding of `enum Priority` in src/writer.rs -/

/-- The eight syslog severity levels, ordinals 0 (`Emerg`) to 7 (`Debug`). -/
inductive Priority
  | Emerg | Alert | Crit | Err | Warning | Notice | Info | Debug
deriving DecidableEq, Repr

/-- Embedding of `impl TryFrom<u8> for Priority` (src/writer.rs:97-113);
the `bail!` arm becomes `none`, since the caller only uses `.ok()`. -/
def Priority.tryFromU8 : Nat → Option Priority
  | 0 => some .Emerg
  | 1 => some .Alert
  | 2 => some .Crit
  | 3 => some .Err
  | 4 => some .Warning
  | 5 => some .Notice
  | 6 => some .Info
  | 7 => some .Debug
  | _ => none

/-- The value of a decimal digit character. -/
def decDigit? (c : Char) : Option Nat :=
  if '0' ≤ c ∧ c ≤ '9' then some (c.toNat - '0'.toNat) else none

/-- Accumulate the value of a decimal digit string; `none` when a
non-digit appears. -/
def decDigitsVal : List Char → Nat → Option Nat
  | [], acc => some acc
  | c :: cs, acc =>
    match decDigit? c with
    | some d => decDigitsVal cs (acc * 10 + d)
    | none => none

/-- Embedding of Rust `str::parse::<u8>`: an optional leading `+`, then
at least one decimal digit and nothing else, with a value that fits in
eight bits. -/
def parseU8 (s : String) : Option Nat :=
  let cs :=
    match s.toList with
    | '+' :: rest => rest
    | cs => cs
  match cs with
  | [] => none
  | _ :: _ =>
    match decDigitsVal cs 0 with
    | some n => if n ≤ 255 then some n else none
    | none => none

/-- Embedding of `impl TryFrom<&str> for Priority` (src/writer.rs:115-122). -/
def Priority.tryFromStr (s : String) : Option Priority :=
  (parseU8 s).bind Priority.tryFromU8

/-- Embedding of `impl fmt::Display for Priority` (src/writer.rs:124-139). -/
def Priority.display : Priority → String
  | .Emerg => "Emergency"
  | .Alert => "Alert"
  | .Crit => "Critical"
  | .Err => "Error"
  | .Warning => "Warning"
  | .Notice => "Notice"
  | .Info => "Informational"
  | .Debug => "Debug"

/-! ## Timestamp rendering

`write_log_line` renders the reception wallclock time (microseconds
since the Unix epoch, a nonnegative journald `u64`) with
`to_rfc3339_opts(SecondsFormat::Secs, false)`, once in UTC and once in
the local timezone.  The local timezone is environment input; it is
modelled as an explicit offset in minutes. -/

/-- Zero-pad a number to two digits. -/
def pad2 (n : Nat) : String := if n < 10 then "0" ++ toString n else toString n

/-- Proleptic Gregorian date (year, month, day) for a day count since
1970-01-01 (Howard Hinnant's `civil_from_days`, restricted to
nonnegative day counts). -/
def civilFromDays (z0 : Nat) : Nat × Nat × Nat :=
  let z := z0 + 719468
  let era := z / 146097
  let doe := z % 146097
  let yoe := (doe - doe / 1460 + doe / 36524 - doe / 146096) / 365
  let y := yoe + era * 400
  let doy := doe - (365 * yoe + yoe / 4 - yoe / 100)
  let mp := (5 * doy + 2) / 153
  let d := doy - (153 * mp + 2) / 5 + 1
  let m := if mp < 10 then mp + 3 else mp - 9
  (if m ≤ 2 then y + 1 else y, m, d)

/-- `YYYY-MM-DD` for a day count since the epoch. -/
def renderDate (days : Nat) : String :=
  let c := civilFromDays days
  toString c.1 ++ "-" ++ pad2 c.2.1 ++ "-" ++ pad2 c.2.2

/-- `hh:mm:ss` for a second-of-day. -/
def renderTimeOfDay (s : Nat) : String :=
  pad2 (s / 3600) ++ ":" ++ pad2 (s / 60 % 60) ++ ":" ++ pad2 (s % 60)

/-- The `±hh:mm` timezone suffix of RFC 3339 (without `Z`, matching
`use_z = false`). -/
def offsetSuffix (offMin : Int) : String :=
  (if offMin < 0 then "-" else "+") ++
    pad2 (offMin.natAbs / 60) ++ ":" ++ pad2 (offMin.natAbs % 60)

/-- RFC 3339 at second resolution for a timezone whose offset is
`offMin` minutes; `secs` is the second count of that timezone's clock. -/
def renderRfc3339Secs (secs : Nat) (offMin : Int) : String :=
  renderDate (secs / 86400) ++ "T" ++ renderTimeOfDay (secs % 86400) ++ offsetSuffix offMin

/-- The UTC timestamp rendered by `write_log_line`. -/
def renderUtc (secs : Nat) : String := renderRfc3339Secs secs 0

/-- The local timestamp rendered by `write_log_line` for a local
timezone `offMin` minutes east of UTC. -/
def renderLocal (secs : Nat) (offMin : Int) : String :=
  renderRfc3339Secs ((secs : Int) + offMin * 60).toNat offMin

/-! ## Journal entries: the record interface of the `journald` crate -/

/-- A structured journal record as seen through the crate interface used
by the program: a reception wallclock time (microseconds, absent when
`get_reception_wallclock_time` fails) and named string fields
(`get_field`).  The message is the `MESSAGE` field and the position
token is the `__CURSOR` field. -/
structure JournalEntry where
  wallclockUs : Option Nat
  fields : List (String × String)
deriving DecidableEq, Repr

/-- Field lookup by name: embedding of `JournalEntry::get_field`. -/
def JournalEntry.get_field (e : JournalEntry) (name : String) : Option String :=
  (e.fields.find? (fun f => f.1 == name)).map (fun f => f.2)

/-- Embedding of `JournalEntry::get_message` (the `MESSAGE` field). -/
def JournalEntry.get_message (e : JournalEntry) : Option String :=
  e.get_field "MESSAGE"

/-! ## Cursor store: embedding of `write_cursor` (src/writer.rs:64-82) -/

/-- The filesystem state touched by the cursor store: the cursor file at
the configured path and the sibling temporary file (the path with its
extension set to `~`).  `none` means the file does not exist. -/
structure FsState where
  cursor : Option (List Nat)
  tmp : Option (List Nat)
deriving DecidableEq, Repr

/-- Writing `new` at offset 0 of a file that already holds `old`
without truncating it: bytes of `old` beyond `new`'s length survive.
This is what `OpenOptions::new().create(true).write(true)` followed by
`write_all` does (the options do not truncate). -/
def overwriteFrom (old new : List Nat) : List Nat :=
  new ++ old.drop new.length

/-- Embedding of `write_cursor`: open the `~` temporary (creating it if
absent, keeping existing bytes otherwise), `write_all` the token's
bytes, then `rename` the temporary over the cursor path. -/
def write_cursor (cursor : String) (fs : FsState) : FsState :=
  let tmpContent := overwriteFrom (fs.tmp.getD []) (strToBytes cursor)
  { cursor := some tmpContent, tmp := none }

/-- The points at which a crash can interrupt `write_cursor`:
before the open, after the open, during `write_all` (with `k` bytes of
the token written), after `write_all`, and after the `rename`. -/
inductive SavePoint
  | beforeOpen
  | afterOpen
  | duringWrite (k : Nat)
  | afterWrite
  | afterRename
deriving DecidableEq, Repr

/-- The filesystem state left behind when a crash interrupts
`write_cursor cursor` at the given point. -/
def write_cursor_crash (cursor : String) (fs : FsState) : SavePoint → FsState
  | .beforeOpen => fs
  | .afterOpen => { fs with tmp := some (fs.tmp.getD []) }
  | .duringWrite k =>
      { fs with tmp := some (overwriteFrom (fs.tmp.getD []) ((strToBytes cursor).take k)) }
  | .afterWrite =>
      { fs with tmp := some (overwriteFrom (fs.tmp.getD []) (strToBytes cursor)) }
  | .afterRename => write_cursor cursor fs

/-! ## Record delivery: embedding of `write_log_line` (src/writer.rs:11-62) -/

/-- Success flags for the fallible I/O one record delivery performs:
the `writeln!` into the sink, the `flush`, and the cursor save. -/
structure IoEnv where
  writeOk : Bool
  flushOk : Bool
  saveOk : Bool
deriving DecidableEq, Repr

/-- The environment in which every I/O operation succeeds. -/
def ioAllOk : IoEnv := ⟨true, true, true⟩

/-- The output line of `write_log_line`, assembled exactly as its
`writeln!` format string
`"{utc_time} {local_time} [{severity}] {unit_name}: {identifier}: {log_line}"`. -/
def formatLine (utc loc sev host ident msg : String) : String :=
  utc ++ (" " ++ (loc ++ (" [" ++ (sev ++ ("] " ++ (host ++ (": " ++ (ident ++ (": " ++ msg)))))))))

/-- The line `write_log_line` produces for an entry (meaningful when the
entry has a wallclock time and a message): severity parsed from
`PRIORITY` defaulting to `Emerg`, host from `_HOSTNAME` defaulting to
`"airlink"`, identifier from `SYSLOG_IDENTIFIER` defaulting to `""`. -/
def renderEntryLine (e : JournalEntry) (offMin : Int) : String :=
  let secs := e.wallclockUs.getD 0 / 1000 / 1000
  let prio := (((e.get_field "PRIORITY").map Priority.tryFromStr).join).getD Priority.Emerg
  let hostname := (e.get_field "_HOSTNAME").getD "airlink"
  let identifier := (e.get_field "SYSLOG_IDENTIFIER").getD ""
  formatLine (renderUtc secs) (renderLocal secs offMin) prio.display hostname identifier
    (e.get_message.getD "")

/-- Embedding of `write_log_line`: returns the function's result
together with the sink (list of written lines) and filesystem state
after the call — mutations performed before a failure persist.
Control flow follows the source: the wallclock lookup fails first, the
message lookup fails inside the `writeln!` argument evaluation (before
any byte reaches the sink), then the write, the flush, and finally —
only when `cursor_update` is set and the entry has a `__CURSOR` field —
the cursor save. -/
def write_log_line (log : JournalEntry) (env : IoEnv) (sink : List String)
    (fs : FsState) (cursor_update : Bool) (offMin : Int) :
    Except String Unit × List String × FsState :=
  match log.wallclockUs with
  | none => (.error "Failed to get wallcklock time from systemd", sink, fs)
  | some _ =>
    match log.get_message with
    | none => (.error "No log line could be read from systemd", sink, fs)
    | some _ =>
      if env.writeOk then
        let sink := sink ++ [renderEntryLine log offMin]
        if env.flushOk then
          if cursor_update then
            match log.get_field "__CURSOR" with
            | some c =>
              if env.saveOk then (.ok (), sink, write_cursor c fs)
              else (.error "Writing cursor", sink, fs)
            | none => (.ok (), sink, fs)
          else (.ok (), sink, fs)
        else (.error "Flushing writer", sink, fs)
      else (.error "write to log_writer", sink, fs)

/-! ## The tailing loop: embedding of `run` (src/main.rs:100-123)

The loop iterates the blocking journal iterator and propagates any
`write_log_line` error with `?`.  `EXIT_FLAG` is false throughout (no
signal arrives); signal handling is modelled separately below.  The
call site in `run` passes `cursor_update` implicitly set: the loop is
modelled with `cursor_update = true`, matching the specified policy of
persisting the cursor after every delivered record. -/

/-- One run of the `for entry in &mut iter` loop over the listed entries
with their I/O environments, starting from the given sink and
filesystem state. -/
def runLoop (offMin : Int) : List (JournalEntry × IoEnv) → List String → FsState →
    Except String Unit × List String × FsState
  | [], sink, fs => (.ok (), sink, fs)
  | (e, env) :: rest, sink, fs =>
    match write_log_line e env sink fs true offMin with
    | (.error m, sink', fs') => (.error m, sink', fs')
    | (.ok _, sink', fs') => runLoop offMin rest sink' fs'

/-! ## The journal reader: seek, previous, and iteration

The reader is the external `journald` crate; only its interface is used
by the repository.  Its location semantics follow the journal API:
a seek establishes a *seek location* at an entry; `previous_entry`
moving up from a seek location realizes the entry at (not before) the
location — this inclusiveness is what makes seek-tail-then-previous
return the last entry — while `previous_entry` from a realized entry
moves to the preceding entry; the blocking iterator yields the entries
strictly after the realized position. -/

/-- A reader position over the journal's entry list.  `seekAt i` is a
seek location at entry `i` (as `JournalSeek::Cursor` establishes);
`beforeIdx i` is a head position in front of entry `i` with no visible
entry before it (as `JournalSeek::ThisBoot` establishes at the start of
the current boot, earlier boots being filtered out); `atIdx i` is a
realized position at entry `i`. -/
inductive Location
  | seekAt (i : Nat)
  | beforeIdx (i : Nat)
  | atIdx (i : Nat)
deriving DecidableEq, Repr

/-- Effect of `previous_entry` on the position: from a seek location it
realizes the entry at the location (inclusive, the semantics that makes
seek-tail-then-previous return the last entry); from a head position
there is no previous entry and the position is unchanged; from a
realized entry it steps back one (staying put at the first entry). -/
def previous_entry : Location → Location
  | .seekAt i => .atIdx i
  | .beforeIdx i => .beforeIdx i
  | .atIdx 0 => .atIdx 0
  | .atIdx (i + 1) => .atIdx i

/-- The entries the blocking iterator will yield from a position. -/
def next_entries (entries : List JournalEntry) : Location → List JournalEntry
  | .seekAt i => entries.drop i
  | .beforeIdx i => entries.drop i
  | .atIdx i => entries.drop (i + 1)

/-- Index of the first entry whose `__CURSOR` field equals the token:
the entry `JournalSeek::Cursor` seeks to. -/
def seekCursorIdx (tok : String) : List JournalEntry → Option Nat
  | [] => none
  | e :: es =>
    if e.get_field "__CURSOR" == some tok then some 0
    else (seekCursorIdx tok es).map (· + 1)

/-- Embedding of `find_cursor` (src/main.rs:136-165).  `cursorFile` is
the content of the cursor file (`none` when absent), `bootStart` the
index of the first entry of the current boot (the position
`JournalSeek::ThisBoot` establishes).  With no cursor file: seek to
this boot, then `previous_entry`.  With a cursor file: read it with
`from_utf8_lossy`, seek to that cursor, then `previous_entry`; the
seek fails when no entry carries the token. -/
def find_cursor (cursorFile : Option (List Nat)) (bootStart : Nat)
    (entries : List JournalEntry) : Except String Location :=
  match cursorFile with
  | none => .ok (previous_entry (.beforeIdx bootStart))
  | some bs =>
    match seekCursorIdx (utf8DecodeLossyStr bs) entries with
    | some i => .ok (previous_entry (.seekAt i))
    | none => .error "Seeking to journald cursor"

/-- A complete daemon run with all I/O succeeding: `find_cursor` from
the filesystem state's cursor file, then the tailing loop over the
entries after the established position. -/
def daemonRun (fs : FsState) (bootStart : Nat) (entries : List JournalEntry)
    (offMin : Int) : Except String Unit × List String × FsState :=
  match find_cursor fs.cursor bootStart entries with
  | .error m => (.error m, [], fs)
  | .ok loc => runLoop offMin ((next_entries entries loc).map (fun e => (e, ioAllOk))) [] fs

/-! ## Signal handling: embedding of `handle_sig` (src/main.rs:20-28) -/

/-- `SIGTERM`'s number. -/
def sigTERM : Nat := 15

/-- `SIGHUP`'s number. -/
def sigHUP : Nat := 1

/-- `SIGINT`'s number (an example of a signal the handler does not
treat as a termination request). -/
def sigINT : Nat := 2

/-- The value `handle_sig` stores into `EXIT_FLAG`:
`signal == Signal::SIGTERM || signal == Signal::SIGHUP`.  `true` is the
"terminate" state of the shutdown flag, `false` is "running". -/
def handle_sig (signal : Nat) : Bool :=
  signal == sigTERM || signal == sigHUP

/-- The flag value after the handler has run for each signal of the
sequence in order (each invocation stores unconditionally). -/
def flagAfterSignals (init : Bool) (sigs : List Nat) : Bool :=
  sigs.foldl (fun _ s => handle_sig s) init

/-- The signals `main_err` actually installs `handle_sig` for
(src/main.rs:48-51): only `SIGTERM`. -/
def installedSignals : List Nat := [sigTERM]

/-! ## Abbreviations used to state properties -/

/-- The cursor-store update `write_log_line` performs for an entry once
the line is written and flushed (with `cursor_update` set): save the
`__CURSOR` field if the entry carries one, otherwise leave the
filesystem untouched. -/
def saveStep (e : JournalEntry) (fs : FsState) : FsState :=
  match e.get_field "__CURSOR" with
  | some c => write_cursor c fs
  | none => fs

/-- An entry both of whose fallible accessors succeed: it has a
reception wallclock time and a message. -/
def entryOk (e : JournalEntry) : Prop :=
  e.wallclockUs.isSome = true ∧ e.get_message.isSome = true

/-- Decidability of `entryOk`, so that witnesses can evaluate it. -/
instance (e : JournalEntry) : Decidable (entryOk e) := by
  unfold entryOk
  infer_instance


/-! ## Helper lemmas -/

set_option maxRecDepth 8192 in
/-- Decoding the UTF-8 encoding of a sequence of Unicode scalar values
recovers the sequence (stepwise, with any sufficient fuel). -/
theorem utf8DecodeLossyAux_encode (vs : List Nat) (h : ∀ v ∈ vs, Nat.isValidChar v)
    (fuel : Nat) (hf : (utf8Encode vs).length ≤ fuel) :
    utf8DecodeLossyAux fuel (utf8Encode vs) = vs := by
  induction vs generalizing fuel with
  | nil =>
    have : utf8Encode [] = [] := rfl
    rw [this]
    cases fuel <;> rfl
  | cons v vs ih =>
    have hv : Nat.isValidChar v := h v (List.mem_cons_self _ _)
    simp only [Nat.isValidChar] at hv
    have hvs : ∀ w ∈ vs, Nat.isValidChar w := fun w hw => h w (List.mem_cons_of_mem _ hw)
    have henc : utf8Encode (v :: vs) = utf8EncodeScalar v ++ utf8Encode vs := by
      simp [utf8Encode]
    rw [henc] at hf ⊢
    rcases Nat.lt_or_ge v 0x80 with h1 | h1
    · rw [show utf8EncodeScalar v = [v] from by unfold utf8EncodeScalar; rw [if_pos h1]] at hf ⊢
      rw [List.singleton_append] at hf ⊢
      obtain ⟨f, rfl⟩ : ∃ f, fuel = f + 1 := ⟨fuel - 1, by simp at hf; omega⟩
      rw [utf8DecodeLossyAux]
      unfold utf8DecodeStep
      rw [if_pos (by omega : v ≤ 0x7F)]
      simp only [List.drop_zero]
      rw [ih hvs f (by simp at hf; omega)]
    · rcases Nat.lt_or_ge v 0x800 with h2 | h2
      · rw [show utf8EncodeScalar v = [0xC0 + v / 64, 0x80 + v % 64] from by
          unfold utf8EncodeScalar; rw [if_neg (by omega), if_pos h2]] at hf ⊢
        rw [List.cons_append, List.cons_append, List.nil_append] at hf ⊢
        obtain ⟨f, rfl⟩ : ∃ f, fuel = f + 1 := ⟨fuel - 1, by simp at hf; omega⟩
        rw [utf8DecodeLossyAux]
        unfold utf8DecodeStep
        rw [if_neg (by omega), if_pos (by omega : 0xC2 ≤ 0xC0 + v / 64 ∧ 0xC0 + v / 64 ≤ 0xDF)]
        dsimp only
        rw [if_pos (by simp only [utf8Cont]; omega : utf8Cont (0x80 + v % 64))]
        dsimp only
        rw [List.drop_succ_cons, List.drop_zero]
        congr 1
        · omega
        · exact ih hvs f (by simp at hf; omega)
      · rcases Nat.lt_or_ge v 0x10000 with h3 | h3
        · rw [show utf8EncodeScalar v = [0xE0 + v / 4096, 0x80 + v / 64 % 64, 0x80 + v % 64] from by
            unfold utf8EncodeScalar; rw [if_neg (by omega), if_neg (by omega), if_pos h3]] at hf ⊢
          rw [List.cons_append, List.cons_append, List.cons_append, List.nil_append] at hf ⊢
          obtain ⟨f, rfl⟩ : ∃ f, fuel = f + 1 := ⟨fuel - 1, by simp at hf; omega⟩
          rw [utf8DecodeLossyAux]
          unfold utf8DecodeStep
          rw [if_neg (by omega), if_neg (by omega),
            if_pos (by omega : 0xE0 ≤ 0xE0 + v / 4096 ∧ 0xE0 + v / 4096 ≤ 0xEF)]
          dsimp only
          rw [if_pos (by simp only [utf8Viable3, utf8Cont]; omega :
            utf8Viable3 (0xE0 + v / 4096) (0x80 + v / 64 % 64))]
          rw [if_pos (by simp only [utf8Cont]; omega : utf8Cont (0x80 + v % 64))]
          dsimp only
          rw [List.drop_succ_cons, List.drop_succ_cons, List.drop_zero]
          congr 1
          · omega
          · exact ih hvs f (by simp at hf; omega)
        · rw [show utf8EncodeScalar v =
              [0xF0 + v / 262144, 0x80 + v / 4096 % 64, 0x80 + v / 64 % 64, 0x80 + v % 64] from by
            unfold utf8EncodeScalar
            rw [if_neg (by omega), if_neg (by omega), if_neg (by omega)]] at hf ⊢
          rw [List.cons_append, List.cons_append, List.cons_append, List.cons_append,
            List.nil_append] at hf ⊢
          obtain ⟨f, rfl⟩ : ∃ f, fuel = f + 1 := ⟨fuel - 1, by simp at hf; omega⟩
          rw [utf8DecodeLossyAux]
          unfold utf8DecodeStep
          rw [if_neg (by omega), if_neg (by omega), if_neg (by omega),
            if_pos (by omega : 0xF0 ≤ 0xF0 + v / 262144 ∧ 0xF0 + v / 262144 ≤ 0xF4)]
          dsimp only
          rw [if_pos (by simp only [utf8Viable4, utf8Cont]; omega :
            utf8Viable4 (0xF0 + v / 262144) (0x80 + v / 4096 % 64))]
          rw [if_pos (by simp only [utf8Cont]; omega : utf8Cont (0x80 + v / 64 % 64))]
          rw [if_pos (by simp only [utf8Cont]; omega : utf8Cont (0x80 + v % 64))]
          dsimp only
          rw [List.drop_succ_cons, List.drop_succ_cons, List.drop_succ_cons, List.drop_zero]
          congr 1
          · omega
          · exact ih hvs f (by simp at hf; omega)

/-- Decoding the UTF-8 encoding of Unicode scalar values is the
identity. -/
theorem utf8DecodeLossy_encode (vs : List Nat) (h : ∀ v ∈ vs, Nat.isValidChar v) :
    utf8DecodeLossy (utf8Encode vs) = vs :=
  utf8DecodeLossyAux_encode vs h _ (Nat.le_refl _)

/-- Loading a saved token with `from_utf8_lossy` recovers the token:
the save/load round trip is the identity on strings. -/
theorem utf8DecodeLossyStr_strToBytes (s : String) :
    utf8DecodeLossyStr (strToBytes s) = s := by
  unfold utf8DecodeLossyStr strToBytes
  rw [utf8DecodeLossy_encode _ (by
    intro v hv
    simp only [List.mem_map] at hv
    obtain ⟨c, _, rfl⟩ := hv
    exact c.valid)]
  rw [show (s.toList.map Char.toNat).map Char.ofNat = s.toList.map (fun c => Char.ofNat c.toNat)
    from by rw [List.map_map]; rfl]
  simp only [Char.ofNat_toNat, List.map_id']
  rfl

/-- A record with wallclock time and message, delivered with all I/O
succeeding: the line is appended to the sink and the cursor store is
updated when the entry carries a token. -/
theorem write_log_line_ok (e : JournalEntry) (sink : List String) (fs : FsState) (off : Int)
    (h : entryOk e) :
    write_log_line e ioAllOk sink fs true off =
      (.ok (), sink ++ [renderEntryLine e off], saveStep e fs) := by
  obtain ⟨h1, h2⟩ := h
  obtain ⟨t, ht⟩ := Option.isSome_iff_exists.mp h1
  obtain ⟨m, hm⟩ := Option.isSome_iff_exists.mp h2
  unfold write_log_line saveStep
  rw [ht, hm]
  cases hfld : e.get_field "__CURSOR" <;> simp [ioAllOk]

/-- The tailing loop over valid records with all I/O succeeding
delivers exactly one line per record, in order, and folds the cursor
saves. -/
theorem runLoop_ok (off : Int) (es : List JournalEntry) (sink : List String) (fs : FsState)
    (h : ∀ e ∈ es, entryOk e) :
    runLoop off (es.map (fun e => (e, ioAllOk))) sink fs =
      (.ok (), sink ++ es.map (renderEntryLine · off), es.foldl (fun f e => saveStep e f) fs) := by
  induction es generalizing sink fs with
  | nil => simp [runLoop]
  | cons e es ih =>
    rw [List.map_cons, runLoop, write_log_line_ok e sink fs off (h e (List.mem_cons_self _ _))]
    dsimp only
    rw [ih (sink ++ [renderEntryLine e off]) (saveStep e fs)
      (fun w hw => h w (List.mem_cons_of_mem _ hw))]
    simp

/-- Substring containment is preserved by prepending. -/
theorem containsSeq_append_left (needle t p : List Char)
    (h : containsSeq needle t = true) : containsSeq needle (p ++ t) = true := by
  induction p with
  | nil => exact h
  | cons a p ih =>
    rw [List.cons_append, containsSeq, Bool.or_eq_true]
    exact Or.inr ih

/-- When position tokens are pairwise distinct, seeking to the token of
the `k`-th entry finds exactly index `k`. -/
theorem seekCursorIdx_of_nodup (entries : List JournalEntry) (k : Nat) (tok : String)
    (hk : k < entries.length)
    (htk : (entries.get ⟨k, hk⟩).get_field "__CURSOR" = some tok)
    (hnodup : (entries.map (fun e => e.get_field "__CURSOR")).Nodup) :
    seekCursorIdx tok entries = some k := by
  induction entries generalizing k with
  | nil => exact absurd hk (Nat.not_lt_zero k)
  | cons e es ih =>
    rw [List.map_cons, List.nodup_cons] at hnodup
    cases k with
    | zero =>
      have h0 : e.get_field "__CURSOR" = some tok := htk
      rw [seekCursorIdx, if_pos (by rw [h0]; exact beq_self_eq_true _)]
    | succ k' =>
      have hk' : k' < es.length := Nat.lt_of_succ_lt_succ hk
      have htk' : (es.get ⟨k', hk'⟩).get_field "__CURSOR" = some tok := htk
      rw [seekCursorIdx, if_neg, ih k' hk' htk' hnodup.2]
      · rfl
      · intro hcontra
        rw [beq_iff_eq] at hcontra
        apply hnodup.1
        rw [hcontra, ← htk']
        exact List.mem_map_of_mem _ (List.get_mem es k' hk')

/-- When no stale temporary file exists, a save leaves the cursor file
holding exactly the token's bytes and consumes the temporary. -/
theorem write_cursor_of_tmp_none (tok : String) (fs : FsState) (h : fs.tmp = none) :
    write_cursor tok fs = ⟨some (strToBytes tok), none⟩ := by
  simp [write_cursor, overwriteFrom, h]

/-- Claim C4: falsified by evaluation.  After a crash between
`write_all` and `rename` while saving "LONGTOKEN" (which leaves the
temporary file behind but the cursor file intact), a subsequent
completed save of the shorter token "B" renames a temporary that was
opened without truncation: the cursor file ends up holding the bytes of
"BONGTOKEN", not exactly the new token "B".  The pre-rename half of the
claim (previous cursor contents unchanged) does hold and is the first
conjunct. -/
theorem c4_stale_tmp_corruption :
    ((write_cursor_crash "LONGTOKEN" ⟨some (strToBytes "A"), none⟩ .afterWrite).cursor
        = some (strToBytes "A")) ∧
    ((write_cursor "B" (write_cursor_crash "LONGTOKEN" ⟨some (strToBytes "A"), none⟩
        .afterWrite)).cursor = some (strToBytes "BONGTOKEN")) ∧
    strToBytes "BONGTOKEN" ≠ strToBytes "B" := by decide

/-- Claim C5: for every nonempty sequence of completed saves starting
from a state with no leftover temporary file, the cursor file contains
exactly the bytes of the last saved token — no trailing bytes, also
when a shorter token follows a longer one — and that content is one of
the saved tokens (in the program, always a `__CURSOR` value returned by
the journal source). -/
theorem c5_cursor_exact (toks : List String) (fs : FsState) (hclean : fs.tmp = none)
    (hne : toks ≠ []) :
    (toks.foldl (fun f t => write_cursor t f) fs).cursor =
      some (strToBytes (toks.getLast hne)) ∧
    (toks.foldl (fun f t => write_cursor t f) fs).tmp = none := by
  induction toks generalizing fs with
  | nil => exact absurd rfl hne
  | cons t ts ih =>
    rw [List.foldl_cons, write_cursor_of_tmp_none t fs hclean]
    cases ts with
    | nil => exact ⟨rfl, rfl⟩
    | cons t2 ts2 =>
      have h2 : (t2 :: ts2) ≠ ([] : List String) := by simp
      rw [List.getLast_cons h2]
      exact ih ⟨some (strToBytes t), none⟩ rfl h2

/-- Witness for C5: saving "LONGTOKEN" then the shorter "B" from a
clean state leaves the file holding exactly "B". -/
theorem c5_cursor_exact_witness :
    ((["LONGTOKEN", "B"] : List String) ≠ []) ∧
    ((["LONGTOKEN", "B"].foldl (fun f t => write_cursor t f) ⟨none, none⟩).cursor =
      some (strToBytes "B")) :=
  ⟨by decide, (c5_cursor_exact ["LONGTOKEN", "B"] ⟨none, none⟩ rfl (by decide)).1⟩

/-- Claim C7 as stated is false: the terminate signal sets the flag to
"terminate" (`true`), but a subsequent interrupt signal dispatched to
`handle_sig` stores `signal == SIGTERM || signal == SIGHUP`, i.e.
`false` — the flag transitions back to "running", instead of being left
unchanged. -/
theorem c7_flag_reset_counterexample :
    flagAfterSignals false [sigTERM] = true ∧
    flagAfterSignals false [sigTERM, sigINT] = false := by decide

/-- Claim C7 amended: `handle_sig` stores exactly whether the received
signal is terminate or hang-up; as long as every signal dispatched to
the handler is one of those two (in the program only the terminate
signal is registered for it), the flag ends at "terminate" after any
nonempty sequence of deliveries, from any starting value. -/
theorem c7_flag_terminate (init : Bool) (sigs : List Nat) (hne : sigs ≠ [])
    (h : ∀ s ∈ sigs, s = sigTERM ∨ s = sigHUP) :
    flagAfterSignals init sigs = true := by
  induction sigs generalizing init with
  | nil => exact absurd rfl hne
  | cons s ss ih =>
    have hs : flagAfterSignals init (s :: ss) = flagAfterSignals (handle_sig s) ss := rfl
    rw [hs]
    cases ss with
    | nil => rcases h s (List.mem_cons_self _ _) with rfl | rfl <;> decide
    | cons s2 ss2 =>
      exact ih (handle_sig s) (by simp) (fun w hw => h w (List.mem_cons_of_mem _ hw))

/-- Witness for C7's amended theorem: a terminate followed by a hang-up
signal leaves the flag at "terminate". -/
theorem c7_flag_terminate_witness :
    (([sigTERM, sigHUP] : List Nat) ≠ []) ∧
    flagAfterSignals false [sigTERM, sigHUP] = true :=
  ⟨by decide, c7_flag_terminate false [sigTERM, sigHUP] (by decide) (by decide)⟩

/-- Claim C9 as stated is false for cursor-file bytes that are not
valid UTF-8: loading the one-byte file `0xFF` with `from_utf8_lossy`
yields the replacement character, so the token handed back to seek
re-encodes to `EF BF BD`, not the original byte. -/
theorem c9_non_utf8_counterexample :
    strToBytes (utf8DecodeLossyStr [0xFF]) = [0xEF, 0xBF, 0xBD] ∧
    strToBytes (utf8DecodeLossyStr [0xFF]) ≠ [0xFF] := by decide

/-- Claim C9 amended: for every token the source returns (a string —
the crate's field accessors only yield valid UTF-8), the bytes a save
writes are the token's bytes and the lossy load recovers the token
byte-for-byte; only a cursor file whose bytes are not valid UTF-8 (a
state the program itself never writes) is altered by the lossy
decoding. -/
theorem c9_token_roundtrip (tok : String) (fs : FsState) (h : fs.tmp = none) :
    (write_cursor tok fs).cursor = some (strToBytes tok) ∧
    utf8DecodeLossyStr (strToBytes tok) = tok :=
  ⟨by rw [write_cursor_of_tmp_none tok fs h], utf8DecodeLossyStr_strToBytes tok⟩

/-- Witness for C9's amended theorem on a journald-style cursor
token. -/
theorem c9_token_roundtrip_witness :
    ((⟨none, none⟩ : FsState).tmp = none) ∧
    ((write_cursor "s=abc;i=1f4" ⟨none, none⟩).cursor = some (strToBytes "s=abc;i=1f4") ∧
      utf8DecodeLossyStr (strToBytes "s=abc;i=1f4") = "s=abc;i=1f4") :=
  ⟨rfl, c9_token_roundtrip "s=abc;i=1f4" ⟨none, none⟩ rfl⟩

/-- Claim C10: if the sink write or the flush fails, `write_log_line`
returns an error and the filesystem state — in particular the cursor
file — is unchanged, so the persisted cursor never advances past a
record that was not durably written to the sink. -/
theorem c10_sink_failure_no_cursor_advance (e : JournalEntry) (env : IoEnv)
    (sink : List String) (fs : FsState) (cu : Bool) (off : Int)
    (h : env.writeOk = false ∨ env.flushOk = false) :
    (write_log_line e env sink fs cu off).1 ≠ .ok () ∧
    (write_log_line e env sink fs cu off).2.2 = fs := by
  unfold write_log_line
  cases hw : e.wallclockUs with
  | none => exact ⟨by simp, rfl⟩
  | some t =>
    cases hm : e.get_message with
    | none => exact ⟨by simp, rfl⟩
    | some m =>
      rcases h with h | h
      · rw [h]
        exact ⟨by simp, rfl⟩
      · cases hwk : env.writeOk with
        | false => exact ⟨by simp, rfl⟩
        | true =>
          rw [h]
          exact ⟨by simp, rfl⟩

/-- Witness for C10 at a concrete record with a failing flush. -/
theorem c10_sink_failure_witness :
    ((⟨true, false, true⟩ : IoEnv).writeOk = false ∨ (⟨true, false, true⟩ : IoEnv).flushOk = false) ∧
    ((write_log_line ⟨some 0, [("MESSAGE", "m"), ("__CURSOR", "c")]⟩ ⟨true, false, true⟩ []
        ⟨none, none⟩ true 0).1 ≠ .ok () ∧
      (write_log_line ⟨some 0, [("MESSAGE", "m"), ("__CURSOR", "c")]⟩ ⟨true, false, true⟩ []
        ⟨none, none⟩ true 0).2.2 = ⟨none, none⟩) :=
  ⟨Or.inr rfl, c10_sink_failure_no_cursor_advance _ _ _ _ _ _ (Or.inr rfl)⟩

/-- Claim C2 amended: a record lacking a message makes `write_log_line`
return a missing-field error before anything reaches the sink, and the
loop in `run` propagates that error with `?`: the run terminates at
once with this error, the record is excluded from sink output, and no
subsequent record is delivered (rather than the loop continuing). -/
theorem c2_missing_message_error_propagates (e : JournalEntry)
    (rest : List (JournalEntry × IoEnv)) (sink : List String) (fs : FsState) (off : Int)
    (t : Nat) (ht : e.wallclockUs = some t) (hm : e.get_message = none) :
    runLoop off ((e, ioAllOk) :: rest) sink fs =
      (.error "No log line could be read from systemd", sink, fs) := by
  rw [runLoop]
  unfold write_log_line
  rw [ht, hm]

/-- Witness for C2's amended theorem: a message-less record followed by
a valid record ends the run with the missing-field error and an empty
sink. -/
theorem c2_missing_message_witness :
    ((⟨some 0, [("__CURSOR", "x")]⟩ : JournalEntry).get_message = none) ∧
    runLoop 0 [(⟨some 0, [("__CURSOR", "x")]⟩, ioAllOk),
        (⟨some 0, [("MESSAGE", "ok"), ("__CURSOR", "y")]⟩, ioAllOk)] [] ⟨none, none⟩ =
      (.error "No log line could be read from systemd", [], ⟨none, none⟩) :=
  ⟨rfl, c2_missing_message_error_propagates _ _ _ _ _ 0 rfl rfl⟩

/-- Claim C2 as stated is false: after the message-less record, the
following valid record — which alone would be delivered (second
conjunct) — is not delivered, because the loop stops with the error
instead of continuing. -/
theorem c2_missing_message_fatal_counterexample :
    ((runLoop 0 [(⟨some 0, [("__CURSOR", "x")]⟩, ioAllOk),
        (⟨some 0, [("MESSAGE", "ok"), ("__CURSOR", "y")]⟩, ioAllOk)] [] ⟨none, none⟩).2.1 = []) ∧
    ((runLoop 0 [(⟨some 0, [("MESSAGE", "ok"), ("__CURSOR", "y")]⟩, ioAllOk)] []
        ⟨none, none⟩).2.1.length = 1) ∧
    ((runLoop 0 [(⟨some 0, [("__CURSOR", "x")]⟩, ioAllOk),
        (⟨some 0, [("MESSAGE", "ok"), ("__CURSOR", "y")]⟩, ioAllOk)] [] ⟨none, none⟩).1.isOk =
      false) := by decide

/-- Claim C3 amended: an I/O failure while saving the cursor occurs
after the record's line has been written and flushed, so the record is
delivered exactly once and not retried within the run; but the error
propagates out of the loop via `?`, terminating the daemon (and leaving
the cursor file unchanged), rather than being logged and skipped. -/
theorem c3_save_failure_terminates (e : JournalEntry)
    (rest : List (JournalEntry × IoEnv)) (sink : List String) (fs : FsState) (off : Int)
    (t : Nat) (m c : String) (ht : e.wallclockUs = some t) (hm : e.get_message = some m)
    (hc : e.get_field "__CURSOR" = some c) :
    runLoop off ((e, ⟨true, true, false⟩) :: rest) sink fs =
      (.error "Writing cursor", sink ++ [renderEntryLine e off], fs) := by
  rw [runLoop]
  unfold write_log_line
  rw [ht, hm, hc]
  rfl

/-- Witness for C3's amended theorem: a record whose cursor save fails,
followed by a valid record, ends the run with the save error after
delivering only the first record's line. -/
theorem c3_save_failure_witness :
    ((⟨some 0, [("MESSAGE", "m1"), ("__CURSOR", "c1")]⟩ : JournalEntry).get_field "__CURSOR" =
      some "c1") ∧
    runLoop 0 [(⟨some 0, [("MESSAGE", "m1"), ("__CURSOR", "c1")]⟩, ⟨true, true, false⟩),
        (⟨some 0, [("MESSAGE", "m2"), ("__CURSOR", "c2")]⟩, ioAllOk)] [] ⟨none, none⟩ =
      (.error "Writing cursor",
        [renderEntryLine ⟨some 0, [("MESSAGE", "m1"), ("__CURSOR", "c1")]⟩ 0], ⟨none, none⟩) :=
  ⟨rfl, c3_save_failure_terminates _ _ _ _ _ 0 "m1" "c1" rfl rfl rfl⟩

/-- Claim C3 as stated is false: with a failing cursor save on the
first record, the run does not continue — it returns an error and the
second record is never delivered. -/
theorem c3_save_failure_fatal_counterexample :
    ((runLoop 0 [(⟨some 0, [("MESSAGE", "m1"), ("__CURSOR", "c1")]⟩, ⟨true, true, false⟩),
        (⟨some 0, [("MESSAGE", "m2"), ("__CURSOR", "c2")]⟩, ioAllOk)] [] ⟨none, none⟩).1.isOk =
      false) ∧
    ((runLoop 0 [(⟨some 0, [("MESSAGE", "m1"), ("__CURSOR", "c1")]⟩, ⟨true, true, false⟩),
        (⟨some 0, [("MESSAGE", "m2"), ("__CURSOR", "c2")]⟩, ioAllOk)] []
        ⟨none, none⟩).2.1.length = 1) := by decide

/-- Claim C8 amended: with no cursor file, `find_cursor` seeks to the
start of the current boot (`JournalSeek::ThisBoot`), not to the tail;
after the no-op step back the daemon delivers every record of the
current boot — including records logged before the daemon started —
and nothing from previous boots. -/
theorem c8_fresh_start_delivers_boot (entries : List JournalEntry) (b : Nat) (off : Int)
    (h : ∀ e ∈ entries, entryOk e) :
    (daemonRun ⟨none, none⟩ b entries off).1 = .ok () ∧
    (daemonRun ⟨none, none⟩ b entries off).2.1 =
      (entries.drop b).map (renderEntryLine · off) := by
  unfold daemonRun find_cursor
  dsimp only [previous_entry, next_entries]
  rw [runLoop_ok off (entries.drop b) [] ⟨none, none⟩
    (fun e he => h e (List.drop_subset _ _ he))]
  simp

/-- Witness for C8's amended theorem: two current-boot records that
exist before startup are both delivered. -/
theorem c8_fresh_start_witness :
    (∀ e ∈ [(⟨some 0, [("MESSAGE", "old 1"), ("__CURSOR", "h1")]⟩ : JournalEntry),
        ⟨some 0, [("MESSAGE", "old 2"), ("__CURSOR", "h2")]⟩], entryOk e) ∧
    (daemonRun ⟨none, none⟩ 0 [⟨some 0, [("MESSAGE", "old 1"), ("__CURSOR", "h1")]⟩,
        ⟨some 0, [("MESSAGE", "old 2"), ("__CURSOR", "h2")]⟩] 0).2.1 =
      ([(⟨some 0, [("MESSAGE", "old 1"), ("__CURSOR", "h1")]⟩ : JournalEntry),
        ⟨some 0, [("MESSAGE", "old 2"), ("__CURSOR", "h2")]⟩].drop 0).map (renderEntryLine · 0) :=
  ⟨by decide, (c8_fresh_start_delivers_boot _ 0 0 (by decide)).2⟩

/-- Claim C8 as stated is false: a fresh start over a current boot that
already holds two records (historical at startup) delivers both of
them, not only records produced after startup. -/
theorem c8_fresh_start_counterexample :
    (daemonRun ⟨none, none⟩ 0 [⟨some 0, [("MESSAGE", "old 1"), ("__CURSOR", "h1")]⟩,
        ⟨some 0, [("MESSAGE", "old 2"), ("__CURSOR", "h2")]⟩] 0).2.1.length = 2 := by decide

/-- Claim C1: with the cursor file holding the token of record `k` and
all position tokens distinct, `find_cursor` seeks to that token, steps
to it, and the run delivers exactly the records `k+1 .. N`, once each,
in order — no gaps, and no re-delivery of record `k`. -/
theorem c1_resume_exactly_once (entries : List JournalEntry) (k : Nat) (tok : String)
    (b : Nat) (off : Int)
    (hk : k < entries.length)
    (htk : (entries.get ⟨k, hk⟩).get_field "__CURSOR" = some tok)
    (hnodup : (entries.map (fun e => e.get_field "__CURSOR")).Nodup)
    (hvalid : ∀ e ∈ entries, entryOk e) :
    (daemonRun ⟨some (strToBytes tok), none⟩ b entries off).1 = .ok () ∧
    (daemonRun ⟨some (strToBytes tok), none⟩ b entries off).2.1 =
      (entries.drop (k + 1)).map (renderEntryLine · off) := by
  unfold daemonRun find_cursor
  dsimp only
  rw [utf8DecodeLossyStr_strToBytes, seekCursorIdx_of_nodup entries k tok hk htk hnodup]
  dsimp only [previous_entry, next_entries]
  rw [runLoop_ok off (entries.drop (k + 1)) [] ⟨some (strToBytes tok), none⟩
    (fun e he => hvalid e (List.drop_subset _ _ he))]
  simp

/-- Witness for C1: resuming from the persisted token "b" of the second
of three records delivers exactly the third record's line. -/
theorem c1_resume_witness :
    (([(⟨some 0, [("MESSAGE", "r1"), ("__CURSOR", "a")]⟩ : JournalEntry),
        ⟨some 0, [("MESSAGE", "r2"), ("__CURSOR", "b")]⟩,
        ⟨some 0, [("MESSAGE", "r3"), ("__CURSOR", "c")]⟩].map
          (fun e => e.get_field "__CURSOR")).Nodup) ∧
    ((daemonRun ⟨some (strToBytes "b"), none⟩ 0
        [⟨some 0, [("MESSAGE", "r1"), ("__CURSOR", "a")]⟩,
         ⟨some 0, [("MESSAGE", "r2"), ("__CURSOR", "b")]⟩,
         ⟨some 0, [("MESSAGE", "r3"), ("__CURSOR", "c")]⟩] 0).2.1 =
      ([(⟨some 0, [("MESSAGE", "r1"), ("__CURSOR", "a")]⟩ : JournalEntry),
        ⟨some 0, [("MESSAGE", "r2"), ("__CURSOR", "b")]⟩,
        ⟨some 0, [("MESSAGE", "r3"), ("__CURSOR", "c")]⟩].drop 2).map (renderEntryLine · 0)) :=
  ⟨by decide,
    (c1_resume_exactly_once
      [⟨some 0, [("MESSAGE", "r1"), ("__CURSOR", "a")]⟩,
       ⟨some 0, [("MESSAGE", "r2"), ("__CURSOR", "b")]⟩,
       ⟨some 0, [("MESSAGE", "r3"), ("__CURSOR", "c")]⟩] 1 "b" 0 0 (by decide) rfl (by decide)
      (by decide)).2⟩

/-- The characters of a concatenation. -/
theorem toList_append (a b : String) : (a ++ b).toList = a.toList ++ b.toList :=
  String.data_append a b

/-- A substring of the fixed tail of the output line (everything from
the severity bracket on) occurs in the full formatted line. -/
theorem containsSeq_formatLine (needle : List Char) (utc loc sev host ident msg : String)
    (h : containsSeq needle
      (" [" ++ (sev ++ ("] " ++ (host ++ (": " ++ (ident ++ (": " ++ msg))))))).toList = true) :
    containsSeq needle (formatLine utc loc sev host ident msg).toList = true := by
  unfold formatLine
  rw [toList_append]
  apply containsSeq_append_left _ _ _
  rw [toList_append]
  apply containsSeq_append_left _ _ _
  rw [toList_append]
  apply containsSeq_append_left _ _ _
  exact h

/-- Claim C6 amended: for the two-record scenario with no prior cursor,
the sink receives exactly two lines, the second line contains
"[Error]" (severity ordinal 3 maps to `Priority::Err`, displayed
"Error" — not "[Critical]", which is ordinal 2) and "disk full", and
the cursor file finally holds exactly "b". -/
theorem c6_scenario_second_line_error (t1 t2 : Nat) (off : Int) :
    daemonRun ⟨none, none⟩ 0
        [⟨some t1, [("MESSAGE", "boot ok"), ("PRIORITY", "6"), ("__CURSOR", "a")]⟩,
         ⟨some t2, [("MESSAGE", "disk full"), ("PRIORITY", "3"), ("__CURSOR", "b")]⟩] off =
      (.ok (),
        [renderEntryLine ⟨some t1, [("MESSAGE", "boot ok"), ("PRIORITY", "6"), ("__CURSOR", "a")]⟩
          off,
         renderEntryLine ⟨some t2, [("MESSAGE", "disk full"), ("PRIORITY", "3"), ("__CURSOR", "b")]⟩
          off],
        ⟨some (strToBytes "b"), none⟩) ∧
    containsSeq "[Error]".toList
      (renderEntryLine ⟨some t2, [("MESSAGE", "disk full"), ("PRIORITY", "3"), ("__CURSOR", "b")]⟩
        off).toList = true ∧
    containsSeq "disk full".toList
      (renderEntryLine ⟨some t2, [("MESSAGE", "disk full"), ("PRIORITY", "3"), ("__CURSOR", "b")]⟩
        off).toList = true := by
  have hok : ∀ e ∈ [(⟨some t1, [("MESSAGE", "boot ok"), ("PRIORITY", "6"), ("__CURSOR", "a")]⟩ :
        JournalEntry),
      ⟨some t2, [("MESSAGE", "disk full"), ("PRIORITY", "3"), ("__CURSOR", "b")]⟩], entryOk e := by
    intro e he
    rcases List.mem_cons.mp he with rfl | he2
    · exact ⟨rfl, rfl⟩
    rcases List.mem_cons.mp he2 with rfl | h3
    · exact ⟨rfl, rfl⟩
    cases h3
  have hfmt : renderEntryLine
      ⟨some t2, [("MESSAGE", "disk full"), ("PRIORITY", "3"), ("__CURSOR", "b")]⟩ off =
      formatLine (renderUtc (t2 / 1000 / 1000)) (renderLocal (t2 / 1000 / 1000) off)
        "Error" "airlink" "" "disk full" := rfl
  refine ⟨?_, ?_, ?_⟩
  · unfold daemonRun find_cursor
    dsimp only [previous_entry, next_entries]
    rw [List.drop_zero, runLoop_ok off _ [] _ hok]
    rfl
  · rw [hfmt]
    exact containsSeq_formatLine _ _ _ _ _ _ _ (by decide)
  · rw [hfmt]
    exact containsSeq_formatLine _ _ _ _ _ _ _ (by decide)

/-- Claim C6 as stated is false: in the scenario's run the second of
the two delivered lines does not contain "[Critical]". -/
theorem c6_scenario_critical_counterexample :
    containsSeq "[Critical]".toList
      ((daemonRun ⟨none, none⟩ 0
        [⟨some 0, [("MESSAGE", "boot ok"), ("PRIORITY", "6"), ("__CURSOR", "a")]⟩,
         ⟨some 0, [("MESSAGE", "disk full"), ("PRIORITY", "3"), ("__CURSOR", "b")]⟩]
        0).2.1.getD 1 "").toList = false ∧
    (daemonRun ⟨none, none⟩ 0
        [⟨some 0, [("MESSAGE", "boot ok"), ("PRIORITY", "6"), ("__CURSOR", "a")]⟩,
         ⟨some 0, [("MESSAGE", "disk full"), ("PRIORITY", "3"), ("__CURSOR", "b")]⟩]
        0).2.1.length = 2 := by decide
